import Mathlib

/-!
Shallow embedding of the Property Price Predictor application (src/app.py).

The application is a single-page form: it loads a serialized model and a CSV
dataset at startup, builds a city-to-regions lookup, renders a form with
category, type, city, region, room count, bathroom count and size controls,
and on submission validates the inputs, assembles a one-row feature table,
invokes the model and displays the labelled result with optional advisory
warnings.

Numeric form values (sliders, number input, predicted price) are embedded as
rationals; all comparisons the script performs on them (against 0 and 10000)
are exact. Categorical values are strings. Display calls (st.error,
st.success, st.markdown, st.warning) are embedded as a list of display
elements produced by the submission handler; the success element carries the
predicted price value (the script formats it as a currency string, which we
do not model further since no property depends on the digit formatting).
-/

namespace PropertyPrice

/-- A single value of a feature column: either a string or a number. -/
inductive FieldValue where
  | str (s : String)
  | num (q : ℚ)
deriving DecidableEq

/-- The current form selections at submission time (app.py lines 78-125). -/
structure FormState where
  category : String
  type_property : String
  city : String
  region : String
  room_count : ℚ
  bathroom_count : ℚ
  size : ℚ

/-- The opaque predictor: takes the one-row feature table, returns a price or
raises a runtime error (app.py line 151, `model.predict(input_data)[0]`). -/
def Model : Type := List (String × List FieldValue) → Except String ℚ

/-- The one-row feature table built on valid input (app.py lines 139-147):
a DataFrame literal whose columns, in source order, are category, room_count,
bathroom_count, size, type, city, region, each holding the singleton list of
the corresponding current form value. -/
def input_data (f : FormState) : List (String × List FieldValue) :=
  [ ("category", [FieldValue.str f.category]),
    ("room_count", [FieldValue.num f.room_count]),
    ("bathroom_count", [FieldValue.num f.bathroom_count]),
    ("size", [FieldValue.num f.size]),
    ("type", [FieldValue.str f.type_property]),
    ("city", [FieldValue.str f.city]),
    ("region", [FieldValue.str f.region]) ]

/-- A display call made by the script: st.error, st.success (carrying the
predicted price), st.markdown, st.warning. -/
inductive Element where
  | errorMsg (s : String)
  | successPrice (price : ℚ)
  | markdownMsg (s : String)
  | warningMsg (s : String)
deriving DecidableEq

/-- Result of processing one submission: the display elements emitted, in
order, and the feature row the model was invoked on (`none` when validation
stopped the submission before the model was called). -/
structure Outcome where
  elements : List Element
  calledRow : Option (List (String × List FieldValue))
deriving DecidableEq

/-- st.markdown text after a rental prediction (app.py line 156). -/
def rentalLabel : String := "This is an **estimated monthly rental price**."

/-- st.markdown text after a sale prediction (app.py line 158). -/
def saleLabel : String := "This is an **estimated purchase price**."

/-- st.warning text for an unusually high rental prediction (line 162). -/
def highRentWarning : String :=
  "The predicted rental price seems unusually high. Verify input details or model data."

/-- st.warning text for an unusually low sale prediction (line 164). -/
def lowSaleWarning : String :=
  "The predicted sale price seems unusually low. Verify input details or model data."

/-- The submission handler (app.py lines 131-167): validate size, then the
counts; on valid input build `input_data`, call the model inside try/except,
and on success emit the price, the type-dependent context label, and at most
one anomaly warning (if/elif at lines 161-164). -/
def process_submission (model : Model) (f : FormState) : Outcome :=
  if f.size ≤ 0 then
    { elements := [Element.errorMsg "Size must be greater than 0."],
      calledRow := none }
  else if f.room_count < 0 ∨ f.bathroom_count < 0 then
    { elements := [Element.errorMsg "Room count and bathroom count cannot be negative."],
      calledRow := none }
  else
    match model (input_data f) with
    | Except.ok predicted_price =>
        { elements :=
            [Element.successPrice predicted_price,
             Element.markdownMsg
               (if f.type_property = "À Louer" then rentalLabel else saleLabel)] ++
            (if f.type_property = "À Louer" ∧ predicted_price > 10000 then
               [Element.warningMsg highRentWarning]
             else if f.type_property = "À Vendre" ∧ predicted_price < 10000 then
               [Element.warningMsg lowSaleWarning]
             else []),
          calledRow := some (input_data f) }
    | Except.error e =>
        { elements := [Element.errorMsg ("Error making prediction: " ++ e)],
          calledRow := some (input_data f) }

/-- One row of the dataset CSV; only the city and region columns are used by
the script (app.py lines 66-67). -/
structure PropertyRecord where
  city : String
  region : String
deriving DecidableEq

/-- First-occurrence deduplication, the behaviour of pandas `Series.unique`:
keep each value the first time it appears, drop later repeats. -/
def uniqueList {α : Type} [DecidableEq α] (l : List α) : List α :=
  l.foldl (fun acc x => if x ∈ acc then acc else acc ++ [x]) []

/-- `cities = sorted(df['city'].unique())` (app.py line 66). -/
def cities (df : List PropertyRecord) : List String :=
  List.insertionSort (· ≤ ·) (uniqueList (df.map PropertyRecord.city))

/-- `city_to_regions[c] = sorted(df[df['city'] == c]['region'].unique())`
(app.py line 67). -/
def city_to_regions (df : List PropertyRecord) (c : String) : List String :=
  List.insertionSort (· ≤ ·)
    (uniqueList ((df.filter (fun r => r.city == c)).map PropertyRecord.region))

/-- Default index of the City selectbox (app.py line 95):
`cities.index("Tunis") if "Tunis" in cities else 0`. -/
def city_default_index (cs : List String) : Nat :=
  if "Tunis" ∈ cs then List.indexOf "Tunis" cs else 0

/-- The city selected by default on load: the option at the default index. -/
def default_city (df : List PropertyRecord) : Option String :=
  (cities df).get? (city_default_index (cities df))

/-- Default index of the Region selectbox (app.py line 103):
`city_to_regions[city].index("Autres villes") if "Autres villes" in
city_to_regions[city] else 0`. -/
def region_default_index (rs : List String) : Nat :=
  if "Autres villes" ∈ rs then List.indexOf "Autres villes" rs else 0

/-- The region selected by default for a given city. -/
def default_region (df : List PropertyRecord) (c : String) : Option String :=
  (city_to_regions df c).get? (region_default_index (city_to_regions df c))

/-- Startup environment of one script run: whether the model file loads
(`none` embeds a FileNotFoundError from joblib.load), whether the dataset
parses (`Except.error` embeds an exception from pd.read_csv), the form state
and whether the submit button was pressed. -/
structure Env where
  modelFile : Option Model
  datasetFile : Except String (List PropertyRecord)
  form : FormState
  submitted : Bool

/-- st.error text when the model file is missing (app.py line 54), without
the quotation marks around the file name. -/
def modelMissingMsg : String :=
  "Model file property_price_model.pkl not found. Please ensure it is in the same directory."

/-- Observable result of one script run: elements displayed before the form
would render, whether the form rendered at all, and the submission outcome
(`none` when the script halted earlier or no submission happened). -/
structure RunResult where
  preFormElements : List Element
  formRendered : Bool
  outcome : Option Outcome

/-- One top-to-bottom run of the script (app.py lines 51-167). Model load is
attempted first: on FileNotFoundError the script shows st.error and st.stop
halts it before the form (lines 51-55). The dataset is read next with no
surrounding try/except (lines 58-63), so a read failure is an uncaught
exception: the framework halts the script there and displays the exception,
again before the form. Otherwise the form renders and, if submitted, the
submission handler runs. -/
def runApp (env : Env) : RunResult :=
  match env.modelFile with
  | none =>
      { preFormElements := [Element.errorMsg modelMissingMsg],
        formRendered := false,
        outcome := none }
  | some model =>
      match env.datasetFile with
      | Except.error e =>
          { preFormElements := [Element.errorMsg e],
            formRendered := false,
            outcome := none }
      | Except.ok _ =>
          { preFormElements := [],
            formRendered := true,
            outcome := if env.submitted then some (process_submission model env.form) else none }

/-- Membership under the first-occurrence deduplication fold: an element is in
the result exactly when it is in the accumulator or in the remaining input. -/
lemma mem_unique_foldl {α : Type} [DecidableEq α] :
    ∀ (l acc : List α) (a : α),
      a ∈ l.foldl (fun acc x => if x ∈ acc then acc else acc ++ [x]) acc ↔
        a ∈ acc ∨ a ∈ l := by
  intro l
  induction l with
  | nil => simp
  | cons x xs ih =>
      intro acc a
      simp only [List.foldl_cons]
      rw [ih]
      by_cases hx : x ∈ acc
      · rw [if_pos hx]
        constructor
        · rintro (h | h)
          · exact Or.inl h
          · exact Or.inr (List.mem_cons_of_mem _ h)
        · rintro (h | h)
          · exact Or.inl h
          · rcases List.mem_cons.mp h with rfl | h
            · exact Or.inl hx
            · exact Or.inr h
      · rw [if_neg hx]
        simp only [List.mem_append, List.mem_singleton, List.mem_cons]
        tauto

/-- The first-occurrence deduplication fold preserves freedom from
duplicates. -/
lemma nodup_unique_foldl {α : Type} [DecidableEq α] :
    ∀ (l acc : List α), acc.Nodup →
      (l.foldl (fun acc x => if x ∈ acc then acc else acc ++ [x]) acc).Nodup := by
  intro l
  induction l with
  | nil => intro acc h; simpa using h
  | cons x xs ih =>
      intro acc h
      simp only [List.foldl_cons]
      by_cases hx : x ∈ acc
      · rw [if_pos hx]; exact ih acc h
      · rw [if_neg hx]
        refine ih _ (List.nodup_append.mpr ⟨h, List.nodup_singleton x, ?_⟩)
        intro a ha hax
        rcases List.mem_singleton.mp hax with rfl
        exact hx ha

/-- `uniqueList` keeps exactly the elements of its input. -/
lemma mem_uniqueList {α : Type} [DecidableEq α] {l : List α} {a : α} :
    a ∈ uniqueList l ↔ a ∈ l := by
  unfold uniqueList
  rw [mem_unique_foldl]
  simp

/-- `uniqueList` is duplicate-free. -/
lemma nodup_uniqueList {α : Type} [DecidableEq α] (l : List α) :
    (uniqueList l).Nodup :=
  nodup_unique_foldl l [] List.nodup_nil

/-- The city list is sorted lexicographically. -/
lemma cities_sorted (df : List PropertyRecord) :
    List.Sorted (· ≤ ·) (cities df) :=
  List.sorted_insertionSort _ _

/-- The city list is duplicate-free. -/
lemma cities_nodup (df : List PropertyRecord) : (cities df).Nodup :=
  ((List.perm_insertionSort _ _).nodup_iff).mpr (nodup_uniqueList _)

/-- A city is in the city list exactly when some dataset record has it. -/
lemma mem_cities {df : List PropertyRecord} {c : String} :
    c ∈ cities df ↔ ∃ rec ∈ df, rec.city = c := by
  unfold cities
  rw [List.mem_insertionSort, mem_uniqueList, List.mem_map]

/-- The region list of any city is sorted lexicographically. -/
lemma regions_sorted (df : List PropertyRecord) (c : String) :
    List.Sorted (· ≤ ·) (city_to_regions df c) :=
  List.sorted_insertionSort _ _

/-- The region list of any city is duplicate-free. -/
lemma regions_nodup (df : List PropertyRecord) (c : String) :
    (city_to_regions df c).Nodup :=
  ((List.perm_insertionSort _ _).nodup_iff).mpr (nodup_uniqueList _)

/-- A region is in a city's region list exactly when some dataset record
pairs that city with that region. -/
lemma mem_city_to_regions {df : List PropertyRecord} {c r : String} :
    r ∈ city_to_regions df c ↔ ∃ rec ∈ df, rec.city = c ∧ rec.region = r := by
  unfold city_to_regions
  rw [List.mem_insertionSort, mem_uniqueList, List.mem_map]
  constructor
  · rintro ⟨rec, hrec, rfl⟩
    rw [List.mem_filter] at hrec
    exact ⟨rec, hrec.1, by simpa using hrec.2, rfl⟩
  · rintro ⟨rec, hrec, hcity, rfl⟩
    exact ⟨rec, List.mem_filter.mpr ⟨hrec, by simpa using hcity⟩, rfl⟩

/-- A city that appears in the dataset has a non-empty region list. -/
lemma regions_nonempty {df : List PropertyRecord} {c : String}
    (h : ∃ rec ∈ df, rec.city = c) : city_to_regions df c ≠ [] := by
  rcases h with ⟨rec, hrec, hc⟩
  intro hnil
  have hmem : rec.region ∈ city_to_regions df c :=
    mem_city_to_regions.mpr ⟨rec, hrec, hc, rfl⟩
  rw [hnil] at hmem
  exact List.not_mem_nil _ hmem

/-- The head of a non-empty list sorted by `≤` is a least element. -/
lemma sorted_head_least {l : List String}
    (hs : List.Sorted (· ≤ ·) l) (hne : l ≠ []) :
    ∃ h0, l.head? = some h0 ∧ h0 ∈ l ∧ ∀ x ∈ l, h0 ≤ x := by
  cases l with
  | nil => exact absurd rfl hne
  | cons a t =>
      refine ⟨a, rfl, List.mem_cons_self a t, ?_⟩
      intro x hx
      rcases List.mem_cons.mp hx with rfl | hx
      · exact le_refl x
      · exact List.rel_of_sorted_cons hs x hx

/-- A predictor that always succeeds with a fixed mid-range price. -/
def constModel : Model := fun _ => Except.ok 5000

/-- A predictor that always succeeds with a high price. -/
def highModel : Model := fun _ => Except.ok 15000

/-- A predictor that always raises a runtime error. -/
def errModel : Model := fun _ => Except.error "feature shape mismatch"

/-- A concrete valid sale submission. -/
def sampleForm : FormState :=
  { category := "Appartements", type_property := "À Vendre", city := "Tunis",
    region := "Autres villes", room_count := 2, bathroom_count := 1, size := 100 }

/-- A concrete valid rental submission. -/
def rentForm : FormState :=
  { category := "Appartements", type_property := "À Louer", city := "Tunis",
    region := "Autres villes", room_count := 2, bathroom_count := 1, size := 100 }

/-- A concrete submission with size zero. -/
def zeroSizeForm : FormState :=
  { category := "Villas", type_property := "À Vendre", city := "Sfax",
    region := "Autres villes", room_count := 3, bathroom_count := 2, size := 0 }

/-- A concrete submission with a negative room count. -/
def negRoomForm : FormState :=
  { category := "Offices", type_property := "À Vendre", city := "Sfax",
    region := "Autres villes", room_count := -1, bathroom_count := 1, size := 50 }

/-- A concrete valid submission inside all form-control ranges. -/
def villaForm : FormState :=
  { category := "Villas", type_property := "À Vendre", city := "Sfax",
    region := "Autres villes", room_count := 5, bathroom_count := 3, size := 300 }

/-- A concrete small dataset. -/
def sampleDf : List PropertyRecord :=
  [⟨"Tunis", "Lafayette"⟩, ⟨"Tunis", "Autres villes"⟩,
   ⟨"Sfax", "Autres villes"⟩, ⟨"Tunis", "Lafayette"⟩]

/-- C1: for every valid submission (size > 0, room count ≥ 0, bathroom count
≥ 0), the submission handler invokes the model on the single-row feature
table `input_data`, whose named columns appear in exactly the source order
category, room_count, bathroom_count, size, type, city, region, each column
holding exactly one value equal to the corresponding current form
selection. -/
theorem c1_feature_row_order_and_values (m : Model) (f : FormState)
    (hsize : 0 < f.size) (hroom : 0 ≤ f.room_count) (hbath : 0 ≤ f.bathroom_count) :
    (process_submission m f).calledRow = some (input_data f) ∧
    (input_data f).map Prod.fst =
      ["category", "room_count", "bathroom_count", "size", "type", "city", "region"] ∧
    (input_data f).map Prod.snd =
      [[FieldValue.str f.category], [FieldValue.num f.room_count],
       [FieldValue.num f.bathroom_count], [FieldValue.num f.size],
       [FieldValue.str f.type_property], [FieldValue.str f.city],
       [FieldValue.str f.region]] ∧
    ∀ p ∈ input_data f, p.2.length = 1 := by
  have h1 : ¬ f.size ≤ 0 := not_le.mpr hsize
  have h2 : ¬ (f.room_count < 0 ∨ f.bathroom_count < 0) := by
    push_neg
    exact ⟨hroom, hbath⟩
  refine ⟨?_, rfl, rfl, ?_⟩
  · simp only [process_submission, if_neg h1, if_neg h2]
    cases hm : m (input_data f) <;> rfl
  · intro p hp
    simp only [input_data, List.mem_cons, List.not_mem_nil, or_false] at hp
    rcases hp with rfl | rfl | rfl | rfl | rfl | rfl | rfl <;> rfl

/-- C1 witness: the property at a concrete valid submission and model. -/
theorem c1_feature_row_order_and_values_witness :
    (process_submission constModel sampleForm).calledRow = some (input_data sampleForm) ∧
    (input_data sampleForm).map Prod.fst =
      ["category", "room_count", "bathroom_count", "size", "type", "city", "region"] :=
  ⟨(c1_feature_row_order_and_values constModel sampleForm
      (by norm_num [sampleForm]) (by norm_num [sampleForm]) (by norm_num [sampleForm])).1,
   (c1_feature_row_order_and_values constModel sampleForm
      (by norm_num [sampleForm]) (by norm_num [sampleForm]) (by norm_num [sampleForm])).2.1⟩

/-- C2: a submission with size ≤ 0 produces only the size validation error
and never calls the model; a submission with positive size but a negative
room or bathroom count produces only the negativity validation error and
never calls the model; when both checks pass the model is invoked. -/
theorem c2_validation_gates (m : Model) (f : FormState) :
    (f.size ≤ 0 →
      process_submission m f =
        { elements := [Element.errorMsg "Size must be greater than 0."],
          calledRow := none }) ∧
    (0 < f.size → f.room_count < 0 ∨ f.bathroom_count < 0 →
      process_submission m f =
        { elements := [Element.errorMsg "Room count and bathroom count cannot be negative."],
          calledRow := none }) ∧
    (0 < f.size → 0 ≤ f.room_count → 0 ≤ f.bathroom_count →
      (process_submission m f).calledRow = some (input_data f)) := by
  refine ⟨?_, ?_, ?_⟩
  · intro h
    simp only [process_submission, if_pos h]
  · intro hs hneg
    simp only [process_submission, if_neg (not_le.mpr hs), if_pos hneg]
  · intro hs hr hb
    have h2 : ¬ (f.room_count < 0 ∨ f.bathroom_count < 0) := by
      push_neg
      exact ⟨hr, hb⟩
    simp only [process_submission, if_neg (not_le.mpr hs), if_neg h2]
    cases hm : m (input_data f) <;> rfl

/-- C2 witness: the three branches at concrete submissions. -/
theorem c2_validation_gates_witness :
    process_submission constModel zeroSizeForm =
      { elements := [Element.errorMsg "Size must be greater than 0."],
        calledRow := none } ∧
    process_submission constModel negRoomForm =
      { elements := [Element.errorMsg "Room count and bathroom count cannot be negative."],
        calledRow := none } ∧
    (process_submission constModel villaForm).calledRow = some (input_data villaForm) :=
  ⟨(c2_validation_gates constModel zeroSizeForm).1 (by norm_num [zeroSizeForm]),
   (c2_validation_gates constModel negRoomForm).2.1 (by norm_num [negRoomForm])
     (Or.inl (by norm_num [negRoomForm])),
   (c2_validation_gates constModel villaForm).2.2 (by norm_num [villaForm])
     (by norm_num [villaForm]) (by norm_num [villaForm])⟩

/-- C3: on every successful prediction, the high-rent warning is attached
exactly when the type is "À Louer" and the price is strictly above 10000,
the low-sale warning exactly when the type is "À Vendre" and the price is
strictly below 10000, and in all cases the price result itself is still
displayed. -/
theorem c3_anomaly_warnings (m : Model) (f : FormState) (p : ℚ)
    (hsize : 0 < f.size) (hroom : 0 ≤ f.room_count) (hbath : 0 ≤ f.bathroom_count)
    (hm : m (input_data f) = Except.ok p) :
    (Element.warningMsg highRentWarning ∈ (process_submission m f).elements ↔
       f.type_property = "À Louer" ∧ p > 10000) ∧
    (Element.warningMsg lowSaleWarning ∈ (process_submission m f).elements ↔
       f.type_property = "À Vendre" ∧ p < 10000) ∧
    Element.successPrice p ∈ (process_submission m f).elements := by
  have h1 : ¬ f.size ≤ 0 := not_le.mpr hsize
  have h2 : ¬ (f.room_count < 0 ∨ f.bathroom_count < 0) := by
    push_neg
    exact ⟨hroom, hbath⟩
  have hne : highRentWarning ≠ lowSaleWarning := by decide
  have hlv : ("À Louer" : String) ≠ "À Vendre" := by decide
  have hvl : ("À Vendre" : String) ≠ "À Louer" := by decide
  simp only [process_submission, if_neg h1, if_neg h2, hm]
  by_cases hL : f.type_property = "À Louer" ∧ p > 10000
  · simp [hL.1, hL.2, hne, hne.symm, hlv]
  · by_cases hS : f.type_property = "À Vendre" ∧ p < 10000
    · simp [hL, hS.1, hS.2, hne, hne.symm, hvl]
    · simp [hL, hS]

/-- C3 witness: a rental prediction of 15000 carries the high-rent warning
and still shows the price. -/
theorem c3_anomaly_warnings_witness :
    Element.warningMsg highRentWarning ∈ (process_submission highModel rentForm).elements ∧
    Element.successPrice 15000 ∈ (process_submission highModel rentForm).elements :=
  ⟨((c3_anomaly_warnings highModel rentForm 15000 (by norm_num [rentForm])
       (by norm_num [rentForm]) (by norm_num [rentForm]) rfl).1).mpr
     ⟨rfl, by norm_num⟩,
   (c3_anomaly_warnings highModel rentForm 15000 (by norm_num [rentForm])
       (by norm_num [rentForm]) (by norm_num [rentForm]) rfl).2.2⟩

/-- C4: on every successful prediction, the context label is the rental one
when the type is "À Louer" and the purchase one when the type is "À Vendre",
and every context label shown is one of those two. -/
theorem c4_result_labels (m : Model) (f : FormState) (p : ℚ)
    (hsize : 0 < f.size) (hroom : 0 ≤ f.room_count) (hbath : 0 ≤ f.bathroom_count)
    (hm : m (input_data f) = Except.ok p) :
    (f.type_property = "À Louer" →
       Element.markdownMsg rentalLabel ∈ (process_submission m f).elements) ∧
    (f.type_property = "À Vendre" →
       Element.markdownMsg saleLabel ∈ (process_submission m f).elements) ∧
    ∀ s, Element.markdownMsg s ∈ (process_submission m f).elements →
      s = rentalLabel ∨ s = saleLabel := by
  have h1 : ¬ f.size ≤ 0 := not_le.mpr hsize
  have h2 : ¬ (f.room_count < 0 ∨ f.bathroom_count < 0) := by
    push_neg
    exact ⟨hroom, hbath⟩
  simp only [process_submission, if_neg h1, if_neg h2, hm]
  refine ⟨?_, ?_, ?_⟩
  · intro ht
    simp [ht]
  · intro ht
    have hne : ¬ f.type_property = "À Louer" := by
      rw [ht]
      decide
    simp [hne]
  · intro s hs
    split_ifs at hs <;> simp at hs <;> tauto

/-- C4 witness: the rental label at a concrete rental prediction. -/
theorem c4_result_labels_witness :
    Element.markdownMsg rentalLabel ∈ (process_submission highModel rentForm).elements :=
  (c4_result_labels highModel rentForm 15000 (by norm_num [rentForm])
     (by norm_num [rentForm]) (by norm_num [rentForm]) rfl).1 rfl

/-- C6: any runtime error raised by the model on a valid submission is
caught and surfaced as the single user-visible error element carrying the
underlying failure description, the model call is recorded, and the whole
script run still completes normally with that outcome instead of
crashing. -/
theorem c6_predict_error_reported (m : Model) (f : FormState) (e : String)
    (hsize : 0 < f.size) (hroom : 0 ≤ f.room_count) (hbath : 0 ≤ f.bathroom_count)
    (hm : m (input_data f) = Except.error e) :
    (process_submission m f).elements =
      [Element.errorMsg ("Error making prediction: " ++ e)] ∧
    (process_submission m f).calledRow = some (input_data f) ∧
    ∀ env : Env, env.modelFile = some m → (∃ d, env.datasetFile = Except.ok d) →
      env.submitted = true → env.form = f →
      runApp env = { preFormElements := [], formRendered := true,
                     outcome := some (process_submission m f) } := by
  have h1 : ¬ f.size ≤ 0 := not_le.mpr hsize
  have h2 : ¬ (f.room_count < 0 ∨ f.bathroom_count < 0) := by
    push_neg
    exact ⟨hroom, hbath⟩
  refine ⟨?_, ?_, ?_⟩
  · simp only [process_submission, if_neg h1, if_neg h2, hm]
  · simp only [process_submission, if_neg h1, if_neg h2, hm]
  · rintro env hmf ⟨d, hds⟩ hsub hform
    simp [runApp, hmf, hds, hsub, hform]

/-- C6 witness: the caught-error message at a concrete failing model. -/
theorem c6_predict_error_reported_witness :
    (process_submission errModel sampleForm).elements =
      [Element.errorMsg ("Error making prediction: " ++ "feature shape mismatch")] :=
  (c6_predict_error_reported errModel sampleForm "feature shape mismatch"
     (by norm_num [sampleForm]) (by norm_num [sampleForm])
     (by norm_num [sampleForm]) rfl).1

/-- C5: the city list is lexicographically sorted and duplicate-free and
holds exactly the cities appearing in the dataset; for every city appearing
in the dataset, its region list is non-empty, lexicographically sorted,
duplicate-free, and holds exactly the distinct regions observed with that
city. -/
theorem c5_city_region_index (df : List PropertyRecord) :
    List.Sorted (· ≤ ·) (cities df) ∧ (cities df).Nodup ∧
    (∀ c, c ∈ cities df ↔ ∃ rec ∈ df, rec.city = c) ∧
    ∀ c, (∃ rec ∈ df, rec.city = c) →
      city_to_regions df c ≠ [] ∧
      List.Sorted (· ≤ ·) (city_to_regions df c) ∧
      (city_to_regions df c).Nodup ∧
      ∀ r, r ∈ city_to_regions df c ↔ ∃ rec ∈ df, rec.city = c ∧ rec.region = r :=
  ⟨cities_sorted df, cities_nodup df, fun _ => mem_cities,
   fun c hc => ⟨regions_nonempty hc, regions_sorted df c, regions_nodup df c,
     fun _ => mem_city_to_regions⟩⟩

/-- C5 witness: the region list of "Tunis" in a concrete dataset is
non-empty and duplicate-free. -/
theorem c5_city_region_index_witness :
    city_to_regions sampleDf "Tunis" ≠ [] ∧
    (city_to_regions sampleDf "Tunis").Nodup :=
  ⟨((c5_city_region_index sampleDf).2.2.2 "Tunis"
      ⟨⟨"Tunis", "Lafayette"⟩, by simp [sampleDf], rfl⟩).1,
   ((c5_city_region_index sampleDf).2.2.2 "Tunis"
      ⟨⟨"Tunis", "Lafayette"⟩, by simp [sampleDf], rfl⟩).2.2.1⟩

/-- C7: when the model file is missing at startup, the run halts with
exactly the visible fatal error, before the form renders and with no
submission outcome, so no prediction is ever attempted in that run. -/
theorem c7_model_missing_halts (env : Env) (h : env.modelFile = none) :
    runApp env = { preFormElements := [Element.errorMsg modelMissingMsg],
                   formRendered := false, outcome := none } := by
  simp [runApp, h]

/-- A concrete startup environment whose model file is missing. -/
def noModelEnv : Env :=
  { modelFile := none, datasetFile := Except.ok sampleDf,
    form := sampleForm, submitted := false }

/-- C7 witness: the halt at a concrete environment without a model file. -/
theorem c7_model_missing_halts_witness :
    runApp noModelEnv = { preFormElements := [Element.errorMsg modelMissingMsg],
                          formRendered := false, outcome := none } :=
  c7_model_missing_halts noModelEnv rfl

/-- C8: when reading the dataset fails at startup, the run halts before the
form renders, produces no submission outcome, and displays exactly one
visible error message. -/
theorem c8_dataset_error_halts (env : Env) (e : String)
    (h : env.datasetFile = Except.error e) :
    (runApp env).formRendered = false ∧ (runApp env).outcome = none ∧
    ∃ msg, (runApp env).preFormElements = [Element.errorMsg msg] := by
  cases hm : env.modelFile with
  | none =>
      exact ⟨by simp [runApp, hm], by simp [runApp, hm],
             modelMissingMsg, by simp [runApp, hm]⟩
  | some m =>
      exact ⟨by simp [runApp, hm, h], by simp [runApp, hm, h],
             e, by simp [runApp, hm, h]⟩

/-- A concrete startup environment whose dataset file fails to read. -/
def badDataEnv : Env :=
  { modelFile := some constModel,
    datasetFile := Except.error "No such file: cleaned_property_prices_tunisia.csv",
    form := sampleForm, submitted := false }

/-- C8 witness: the halt at a concrete environment with an unreadable
dataset. -/
theorem c8_dataset_error_halts_witness :
    (runApp badDataEnv).formRendered = false ∧ (runApp badDataEnv).outcome = none ∧
    ∃ msg, (runApp badDataEnv).preFormElements = [Element.errorMsg msg] :=
  c8_dataset_error_halts badDataEnv
    "No such file: cleaned_property_prices_tunisia.csv" rfl

/-- C9: the City selector defaults to "Tunis" when "Tunis" is among the
dataset's cities and otherwise to the alphabetically first city; for every
city in the list, the Region selector (whose options are the city's entry of
the city-to-regions index) defaults to "Autres villes" when that value is in
the city's region list and otherwise to the alphabetically first region. -/
theorem c9_selector_defaults (df : List PropertyRecord) :
    ("Tunis" ∈ cities df → default_city df = some "Tunis") ∧
    (cities df ≠ [] → "Tunis" ∉ cities df →
       ∃ c0, default_city df = some c0 ∧ c0 ∈ cities df ∧
             ∀ c ∈ cities df, c0 ≤ c) ∧
    ∀ c ∈ cities df,
      ("Autres villes" ∈ city_to_regions df c →
         default_region df c = some "Autres villes") ∧
      ("Autres villes" ∉ city_to_regions df c →
         ∃ r0, default_region df c = some r0 ∧ r0 ∈ city_to_regions df c ∧
               ∀ r ∈ city_to_regions df c, r0 ≤ r) := by
  refine ⟨?_, ?_, ?_⟩
  · intro h
    unfold default_city city_default_index
    rw [if_pos h]
    exact List.indexOf_get? h
  · intro hne hnt
    unfold default_city city_default_index
    rw [if_neg hnt]
    rcases sorted_head_least (cities_sorted df) hne with ⟨c0, hh, hmem, hle⟩
    refine ⟨c0, ?_, hmem, hle⟩
    rw [List.get?_zero]
    exact hh
  · intro c hc
    constructor
    · intro h
      unfold default_region region_default_index
      rw [if_pos h]
      exact List.indexOf_get? h
    · intro h
      unfold default_region region_default_index
      rw [if_neg h]
      have hner : city_to_regions df c ≠ [] := regions_nonempty (mem_cities.mp hc)
      rcases sorted_head_least (regions_sorted df c) hner with ⟨r0, hh, hmem, hle⟩
      refine ⟨r0, ?_, hmem, hle⟩
      rw [List.get?_zero]
      exact hh

/-- C9 witness: in a concrete dataset containing "Tunis" with region
"Autres villes", both defaults are those literals. -/
theorem c9_selector_defaults_witness :
    default_city sampleDf = some "Tunis" ∧
    default_region sampleDf "Tunis" = some "Autres villes" :=
  ⟨(c9_selector_defaults sampleDf).1
     (mem_cities.mpr ⟨⟨"Tunis", "Lafayette"⟩, by simp [sampleDf], rfl⟩),
   ((c9_selector_defaults sampleDf).2.2 "Tunis"
      (mem_cities.mpr ⟨⟨"Tunis", "Lafayette"⟩, by simp [sampleDf], rfl⟩)).1
     (mem_city_to_regions.mpr
        ⟨⟨"Tunis", "Autres villes"⟩, by simp [sampleDf], rfl, rfl⟩)⟩

/-- C10: a submission whose values lie within the form-control ranges
(size in [20, 1000], room count in [0, 10], bathroom count in [0, 5]) never
hits a validation error branch and always proceeds to the prediction
step. -/
theorem c10_control_ranges_reach_prediction (m : Model) (f : FormState)
    (hs1 : 20 ≤ f.size) (hs2 : f.size ≤ 1000)
    (hr1 : 0 ≤ f.room_count) (hr2 : f.room_count ≤ 10)
    (hb1 : 0 ≤ f.bathroom_count) (hb2 : f.bathroom_count ≤ 5) :
    (process_submission m f).calledRow = some (input_data f) := by
  have hsize : (0 : ℚ) < f.size := lt_of_lt_of_le (by norm_num) hs1
  have h2 : ¬ (f.room_count < 0 ∨ f.bathroom_count < 0) := by
    push_neg
    exact ⟨hr1, hb1⟩
  simp only [process_submission, if_neg (not_le.mpr hsize), if_neg h2]
  cases hm : m (input_data f) <;> rfl

/-- C10 witness: a concrete in-range submission reaches the prediction
step. -/
theorem c10_control_ranges_reach_prediction_witness :
    (process_submission errModel villaForm).calledRow = some (input_data villaForm) :=
  c10_control_ranges_reach_prediction errModel villaForm
    (by norm_num [villaForm]) (by norm_num [villaForm]) (by norm_num [villaForm])
    (by norm_num [villaForm]) (by norm_num [villaForm]) (by norm_num [villaForm])

end PropertyPrice
